import Mathlib

/-!
Shallow embedding of the `ndraster` library (src/dist/ndraster.cjs.js),
an N-dimensional raster over a flat typed buffer with row-major strides.

Modelling conventions:
* JavaScript numbers are modelled as exact rationals (`ℚ`).  Every numeric
  constant exercised by the theorems below is exactly representable as an
  IEEE-754 double, and every operation exercised (comparison, clamping,
  truncation, small-integer addition/multiplication) is exact on doubles in
  the ranges involved, so the rational model agrees with the JS semantics on
  these values.  The single float-rounding artefact in the source, the
  evaluation of `2 ** 64 / 2 - 1` to `2 ^ 63`, is hard-coded where it occurs.
* `±Infinity` bound entries are modelled by the `JNum` type below.
* Typed-array element stores follow the ECMAScript conversions: truncation
  toward zero followed by a 2^w wrap for the integer kinds; storing a Number
  into a BigInt-backed array (uint64/int64) throws a TypeError.
* Thrown JS errors are modelled with `Except JsError`; the error constructor
  names follow the spec's taxonomy.
-/

/-- The ten dtype tags of `DTYPE_TO_TYPEDARRAY_CONSTRUCTOR`. -/
inductive Dtype where
  | uint8 | int8 | uint16 | int16 | uint32 | int32 | uint64 | int64
  | float32 | float64
deriving DecidableEq, Repr

/-- A JavaScript number that may be `-Infinity` or `+Infinity` (the float
bound entries of the registry); finite values are exact rationals. -/
inductive JNum where
  | negInf : JNum
  | fin : ℚ → JNum
  | posInf : JNum
deriving DecidableEq, Repr

/-- The JavaScript `<` comparison on (non-NaN) numbers, with infinities. -/
def jlt : JNum → JNum → Bool
  | JNum.negInf, JNum.negInf => false
  | JNum.negInf, _ => true
  | JNum.fin a, JNum.fin b => decide (a < b)
  | JNum.fin _, JNum.posInf => true
  | JNum.fin _, JNum.negInf => false
  | JNum.posInf, _ => false

/-- The finite value of a `JNum`; infinite bounds are never selected by the
clamping code (they always fail the strict comparison guarding them), so the
default branch is unreachable in every use below. -/
def JNum.toQ : JNum → ℚ
  | JNum.fin q => q
  | _ => 0

/-- Registry `DTYPE_TO_NB_POSIBLE_VALUES`: `2 ** (BYTES_PER_ELEMENT * 8)` per
kind (written as the evaluated numeral), `Infinity` for the float kinds. -/
def DTYPE_TO_NB_POSIBLE_VALUES : Dtype → JNum
  | Dtype.uint8 => JNum.fin 256
  | Dtype.int8 => JNum.fin 256
  | Dtype.uint16 => JNum.fin 65536
  | Dtype.int16 => JNum.fin 65536
  | Dtype.uint32 => JNum.fin 4294967296
  | Dtype.int32 => JNum.fin 4294967296
  | Dtype.uint64 => JNum.fin 18446744073709551616
  | Dtype.int64 => JNum.fin 18446744073709551616
  | Dtype.float32 => JNum.posInf
  | Dtype.float64 => JNum.posInf

/-- Registry `DTYPE_TO_BOUND`, transcribed entry by entry from the source.
Only the `uint8` entry uses the unsigned formula `[0, n - 1]`; the `uint16`,
`uint32` and `uint64` entries repeat the signed formula `[-n/2, n/2 - 1]`.
The entries are written as the numerals the source expressions evaluate to:
`uint8` is `[0, 256 - 1]`, and each signed-formula row is
`[-(n / 2), n / 2 - 1]` for the kind's `n` above.  For the 64-bit rows the
source expression `2 ** 64 / 2 - 1` is evaluated in IEEE-754 doubles, where
`2^63 - 1` is not representable and rounds to `2^63 = 9223372036854775808`,
so those `max` entries are `2^63`, not `2^63 - 1`. -/
def DTYPE_TO_BOUND : Dtype → JNum × JNum
  | Dtype.uint8 => (JNum.fin 0, JNum.fin 255)
  | Dtype.int8 => (JNum.fin (-128), JNum.fin 127)
  | Dtype.uint16 => (JNum.fin (-32768), JNum.fin 32767)
  | Dtype.int16 => (JNum.fin (-32768), JNum.fin 32767)
  | Dtype.uint32 => (JNum.fin (-2147483648), JNum.fin 2147483647)
  | Dtype.int32 => (JNum.fin (-2147483648), JNum.fin 2147483647)
  | Dtype.uint64 => (JNum.fin (-9223372036854775808), JNum.fin 9223372036854775808)
  | Dtype.int64 => (JNum.fin (-9223372036854775808), JNum.fin 9223372036854775808)
  | Dtype.float32 => (JNum.negInf, JNum.posInf)
  | Dtype.float64 => (JNum.negInf, JNum.posInf)

/-- Truncation toward zero, the integer conversion ECMAScript applies when
storing a Number into an integer-kind typed array (`ToIntegerOrInfinity`):
the numerator t-divided by the (positive) denominator truncates the rational
toward zero. -/
def truncTowardZero (q : ℚ) : ℤ := q.num.tdiv q.den

/-- Wrap an integer into `[0, 2^w)` (unsigned typed-array store). -/
def wrapUnsigned (w : ℕ) (n : ℤ) : ℤ := n % (2 ^ w)

/-- Wrap an integer into `[-2^(w-1), 2^(w-1))` (signed typed-array store). -/
def wrapSigned (w : ℕ) (n : ℤ) : ℤ :=
  let m := n % (2 ^ w)
  if 2 ^ (w - 1) ≤ m then m - 2 ^ w else m

/-- The value conversion performed by `buffer[i] = v` on a typed array of the
given dtype.  Returns `none` for the BigInt-backed kinds, where assigning a
Number throws a TypeError.  The float kinds are modelled exactly (all float
values exercised by the theorems below are exactly representable). -/
def jsStore : Dtype → ℚ → Option ℚ
  | Dtype.uint8, q => some ((wrapUnsigned 8 (truncTowardZero q) : ℤ) : ℚ)
  | Dtype.int8, q => some ((wrapSigned 8 (truncTowardZero q) : ℤ) : ℚ)
  | Dtype.uint16, q => some ((wrapUnsigned 16 (truncTowardZero q) : ℤ) : ℚ)
  | Dtype.int16, q => some ((wrapSigned 16 (truncTowardZero q) : ℤ) : ℚ)
  | Dtype.uint32, q => some ((wrapUnsigned 32 (truncTowardZero q) : ℤ) : ℚ)
  | Dtype.int32, q => some ((wrapSigned 32 (truncTowardZero q) : ℤ) : ℚ)
  | Dtype.uint64, _ => none
  | Dtype.int64, _ => none
  | Dtype.float32, q => some q
  | Dtype.float64, q => some q

/-- Error classes of the spec's taxonomy (the source throws plain `Error`s;
`typeError` and `rangeError` stand for the engine-raised TypeError/RangeError,
and `fuelOut` is a bounded-model artefact never reached at the concrete
inputs evaluated below). -/
inductive JsError where
  | positionError | valueError | shapeError | dataError | configError
  | typeError | rangeError | undefinedRead | fuelOut
deriving DecidableEq, Repr

/-- Propositional equality of `Except` results is decidable componentwise
(used to settle the concrete evaluations below by `decide`). -/
instance {ε α : Type} [DecidableEq ε] [DecidableEq α] : DecidableEq (Except ε α) :=
  fun a b =>
    match a, b with
    | Except.ok x, Except.ok y =>
      if h : x = y then isTrue (by rw [h]) else isFalse (by simp [h])
    | Except.error e, Except.error f =>
      if h : e = f then isTrue (by rw [h]) else isFalse (by simp [h])
    | Except.ok _, Except.error _ => isFalse (by simp)
    | Except.error _, Except.ok _ => isFalse (by simp)

/-- The raster entity: dtype tag, shape, strides and the flat buffer. -/
structure NdRaster where
  dtype : Dtype
  shape : List ℤ
  strides : List ℤ
  data : List ℚ
deriving DecidableEq, Repr

/-- Position validation of `_throwIfInvalidPosition`: the arity must match and
each component must lie in `[0, shape[i] - 1]`. -/
def positionInvalid (shape pos : List ℤ) : Bool :=
  decide (pos.length ≠ shape.length) ||
    (pos.zip shape).any (fun p => decide (p.1 < 0) || decide (p.2 - 1 < p.1))

/-- Flat offset: dot product of a position with the strides. -/
def dotZ (pos strides : List ℤ) : ℤ :=
  (pos.zip strides).foldl (fun a p => a + p.1 * p.2) 0

/-- Typed-array write `buf[off] = w`: out-of-range canonical indices
(negative, or at/after the end) are silently ignored. -/
def jsWrite (buf : List ℚ) (off : ℤ) (w : ℚ) : List ℚ :=
  if off < 0 then buf else buf.set off.toNat w

/-- The clamp of `NdRaster.set`: two independent `if` statements, both testing
the original value against the registry bounds of the raster's dtype. -/
def clampSet (d : Dtype) (v : ℚ) : ℚ :=
  let mn := (DTYPE_TO_BOUND d).1
  let mx := (DTYPE_TO_BOUND d).2
  if jlt mx (JNum.fin v) then mx.toQ
  else if jlt (JNum.fin v) mn then mn.toQ
  else v

/-- The clamp of `copyDataAsType`: `if (v < min) ... else if (v > max) ...`. -/
def clampElseIf (d : Dtype) (v : ℚ) : ℚ :=
  let mn := (DTYPE_TO_BOUND d).1
  let mx := (DTYPE_TO_BOUND d).2
  if jlt (JNum.fin v) mn then mn.toQ
  else if jlt mx (JNum.fin v) then mx.toQ
  else v

/-- Member `NdRaster.get`: validate the position, then read the buffer at the
dot-product offset.  An offset outside the buffer yields `undefined` in JS,
modelled as the non-numeric result `undefinedRead`. -/
def NdRaster.get (r : NdRaster) (pos : List ℤ) : Except JsError ℚ :=
  if positionInvalid r.shape pos then Except.error JsError.positionError
  else
    let off := dotZ pos r.strides
    if 0 ≤ off ∧ off.toNat < r.data.length then
      Except.ok (r.data.getD off.toNat 0)
    else Except.error JsError.undefinedRead

/-- Member `NdRaster.set`: validate the position, clamp the value against the
registry bounds of the raster's dtype, then store it through the typed-array
conversion at the dot-product offset.  (A `ℚ` value is never NaN, so the
source's leading `isNaN` guard is vacuous here.) -/
def NdRaster.set (r : NdRaster) (pos : List ℤ) (v : ℚ) : Except JsError NdRaster :=
  if positionInvalid r.shape pos then Except.error JsError.positionError
  else
    let bounded := clampSet r.dtype v
    let off := dotZ pos r.strides
    match jsStore r.dtype bounded with
    | none => Except.error JsError.typeError
    | some w => Except.ok { r with data := jsWrite r.data off w }

/-- The running product `total` computed by the shape setter's loop. -/
def jsTotal (shape : List ℤ) : ℤ := shape.foldl (· * ·) 1

/-- Stride derivation of the shape setter: `strides[last] = 1` and
`strides[i] = shape[i+1] * strides[i+1]` downward.  For the empty shape the
source's `strides[-1] = 1` assignment is a no-op on the empty array. -/
def deriveStrides : List ℤ → List ℤ
  | [] => []
  | [_] => [1]
  | _ :: b :: t => (b * (deriveStrides (b :: t)).headD 0) :: deriveStrides (b :: t)

/-- The `shape` setter (used both by the constructor and by reshaping): the
only validation performed is that the product of the entries equals the number
of data elements; on success it stores a copy of the shape and the derived
strides. -/
def setShape (dataLen : ℕ) (shape : List ℤ) : Except JsError (List ℤ × List ℤ) :=
  if jsTotal shape ≠ (dataLen : ℤ) then Except.error JsError.shapeError
  else Except.ok (shape, deriveStrides shape)

/-- The `bounds` accessor: the registry pair of the raster's dtype (the getter
returns a fresh `{min, max}` object with the same two values). -/
def NdRaster.bounds (r : NdRaster) : JNum × JNum := DTYPE_TO_BOUND r.dtype

/-- Loop body of the static `getNextPosition`, acting on the reversed lists
(fastest-varying dimension first, matching the source's descending loop).
At each scanned dimension: return `null` if the component is out of
`[min, max)`; if incrementing would reach `max`, reset the component to `min`
and carry into the next slower dimension (`null` when the slowest dimension
carries out); otherwise increment and stop. -/
def gnpAux : List ℤ → List ℤ → List ℤ → Option (List ℤ)
  | p :: ps, m :: ms, x :: xs =>
    if p < m ∨ x ≤ p then none
    else if x ≤ p + 1 then (gnpAux ps ms xs).map (fun rest => m :: rest)
    else some ((p + 1) :: ps)
  | _, _, _ => none

/-- Static `NdRaster.getNextPosition`: row-major successor of `position`
inside the box `[min, max)`, or `none` at the end of the traversal. -/
def getNextPosition (pos mn mx : List ℤ) : Option (List ℤ) :=
  (gnpAux pos.reverse mn.reverse mx.reverse).map List.reverse

/-- The comparison `max[i] > this._shape` from the strict-mode bound check of
`slice`: the right operand is the whole internal shape *array*, which
JavaScript coerces via its string form — a one-element array coerces to its
single number, the empty array to `0`, and any longer array to `NaN`, making
the comparison unconditionally false. -/
def jsGtShapeArray (x : ℤ) (shape : List ℤ) : Bool :=
  match shape with
  | [] => decide (0 < x)
  | [n] => decide (n < x)
  | _ => false

/-- The strict-mode validation loop of `slice` (source lines 397-405):
`min[i] < 0 || min[i] > shape[i] - 1 || max[i] < 1 || max[i] > this._shape`. -/
def strictSliceCheckThrows (shape mn mx : List ℤ) : Bool :=
  (mn.zip (mx.zip shape)).any fun p =>
    decide (p.1 < 0) || decide (p.2.2 - 1 < p.1) || decide (p.2.1 < 1) ||
      jsGtShapeArray p.2.1 shape

/-- The strict-mode violation condition as the spec states it:
`min[i] < 0`, `min[i] >= shape[i]`, or `max[i]` outside `[1, shape[i]]`. -/
def specStrictViolation (shape mn mx : List ℤ) : Bool :=
  (mn.zip (mx.zip shape)).any fun p =>
    decide (p.1 < 0) || decide (p.2.2 ≤ p.1) || decide (p.2.1 < 1) ||
      decide (p.2.2 < p.2.1)

/-- JavaScript `Array.prototype.reduce((a, b) => a * b)` without an initial
value: a TypeError on the empty array, otherwise the product. -/
def jsReduceMul : List ℤ → Except JsError ℤ
  | [] => Except.error JsError.typeError
  | a :: rest => Except.ok (rest.foldl (· * ·) a)

/-- The copy loop of `slice`: read each coordinate of the box through `get`
and store it sequentially into the destination buffer.  The source's clamp
compares the value against `DTYPE_TO_BOUND.min` and `DTYPE_TO_BOUND.max`,
properties that do not exist on the registry object: both comparisons are
against `undefined`, hence false, and NO clamping occurs — only the
typed-array store conversion is applied.  `fuel` bounds the (finite)
traversal; every concrete evaluation below stays strictly under it. -/
def sliceLoop (r : NdRaster) (mn mx : List ℤ) (target : Dtype) :
    ℕ → Option (List ℤ) → List ℚ → ℕ → Except JsError (List ℚ)
  | _, none, buf, _ => Except.ok buf
  | 0, some _, _, _ => Except.error JsError.fuelOut
  | fuel + 1, some pos, buf, idx =>
    match r.get pos with
    | Except.error e => Except.error e
    | Except.ok value =>
      match jsStore target value with
      | none => Except.error JsError.typeError
      | some w =>
        sliceLoop r mn mx target fuel (getNextPosition pos mn mx)
          (jsWrite buf (idx : ℤ) w) (idx + 1)

/-- Member `NdRaster.slice` on the path where both `min` and `max` are given
explicitly (otherwise the source delegates to `copy`): validate the bound
arities, apply the strict check or the non-strict clamp, allocate a
zero-filled destination of `product(max - min)` elements of the target dtype,
run the copy loop, and wrap the destination buffer in a new raster (the
constructor aliases it: matching dtype, `copy: false`, shape `max - min`). -/
def NdRaster.slice (r : NdRaster) (mn mx : List ℤ) (target : Dtype)
    (strict : Bool) : Except JsError NdRaster :=
  if mn.length ≠ r.shape.length ∨ mx.length ≠ r.shape.length then
    Except.error JsError.shapeError
  else
    let checked : Except JsError (List ℤ × List ℤ) :=
      if strict then
        if strictSliceCheckThrows r.shape mn mx then
          Except.error JsError.positionError
        else Except.ok (mn, mx)
      else
        Except.ok (mn.map (fun e => max e 0),
          (mx.zip r.shape).map (fun p => min p.1 p.2))
    match checked with
    | Except.error e => Except.error e
    | Except.ok (mn', mx') =>
      let sliceShape := (mx'.zip mn').map (fun p => p.1 - p.2)
      match jsReduceMul sliceShape with
      | Except.error e => Except.error e
      | Except.ok expectedLength =>
        if expectedLength < 0 then Except.error JsError.rangeError
        else
          match sliceLoop r mn' mx' target (expectedLength.toNat + 1)
              (some mn') (List.replicate expectedLength.toNat 0) 0 with
          | Except.error e => Except.error e
          | Except.ok buf =>
            match setShape buf.length sliceShape with
            | Except.error e => Except.error e
            | Except.ok (s, str) => Except.ok ⟨target, s, str, buf⟩

/-- A JavaScript value that is either a number or a (possibly nested)
generic array — the inputs of the nested-array ingestion path. -/
inductive JVal where
  | num : ℚ → JVal
  | arr : List JVal → JVal
deriving Repr

/-- The digging loop of the static `getNestedArrayShape`: record the length
of each level while the first element keeps being an array; an empty level is
a DataError. -/
def digShape : JVal → Except JsError (List ℤ)
  | JVal.num _ => Except.ok []
  | JVal.arr [] => Except.error JsError.dataError
  | JVal.arr (h :: t) =>
    match digShape h with
    | Except.error e => Except.error e
    | Except.ok rest => Except.ok (((h :: t).length : ℤ) :: rest)

/-- Static `NdRaster.getNestedArrayShape`: a non-array input is an error;
otherwise dig along first elements. -/
def getNestedArrayShape : JVal → Except JsError (List ℤ)
  | JVal.num _ => Except.error JsError.dataError
  | JVal.arr l => digShape (JVal.arr l)

/-- JavaScript `Array.prototype.flat(depth)`: splice array elements flattened
to depth `d - 1`, keep non-array elements. -/
def jflatten : ℕ → List JVal → List JVal
  | 0, l => l
  | d + 1, l =>
    (l.map (fun v =>
      match v with
      | JVal.num q => [JVal.num q]
      | JVal.arr inner => jflatten d inner)).flatten

/-- Static `NdRaster.flattenNestedArray`: dig the shape, flatten to that
depth, and require the product of the shape to equal the flattened length
(the source comments that this "ensures that all the element in a given
dimension have the same size"). -/
def flattenNestedArray (v : JVal) : Except JsError (List JVal × List ℤ) :=
  match getNestedArrayShape v with
  | Except.error e => Except.error e
  | Except.ok shape =>
    match v with
    | JVal.num _ => Except.error JsError.dataError
    | JVal.arr l =>
      let array := jflatten shape.length l
      match jsReduceMul shape with
      | Except.error e => Except.error e
      | Except.ok expectedLength =>
        if (array.length : ℤ) ≠ expectedLength then
          Except.error JsError.dataError
        else Except.ok (array, shape)

/-- Element conversion loop of `copyDataAsType`: clamp (else-if form) against
the registry bounds of the target dtype, then store through the typed-array
conversion. -/
def convertElems (target : Dtype) : List ℚ → Option (List ℚ)
  | [] => some []
  | q :: rest =>
    match jsStore target (clampElseIf target q) with
    | none => none
    | some w =>
      match convertElems target rest with
      | none => none
      | some ws => some (w :: ws)

/-- Static `NdRaster.copyDataAsType` for a typed source buffer of inferred
dtype `guessed`: identical dtypes are duplicated verbatim (`arr.slice()`),
otherwise every element is clamped and converted.  (The target dtype is
statically one of the ten valid tags here, so the leading validity check of
the source cannot fire.) -/
def copyDataAsType (guessed : Dtype) (arr : List ℚ) (target : Dtype) :
    Except JsError (List ℚ) :=
  if guessed = target then Except.ok arr
  else
    match convertElems target arr with
    | none => Except.error JsError.typeError
    | some l => Except.ok l

/-- A heap of live typed buffers, each carrying its element kind; buffer
identity (aliasing) is index identity into this heap. -/
structure JSStore where
  bufs : List (Dtype × List ℚ)
deriving DecidableEq, Repr

/-- A raster whose `_data` field is a reference into a `JSStore`. -/
structure RasterRef where
  buf : ℕ
  dtype : Dtype
  shape : List ℤ
  strides : List ℤ
deriving DecidableEq, Repr

/-- The constructor on a typed-array `data` argument (no `shape` option, so
the shape defaults to `[data.length]`):  the copy-convert branch fires when a
dtype option was provided that differs from the buffer's inferred dtype, or
when `copy` was requested; it allocates a fresh converted buffer and takes
the provided (or default) dtype.  Otherwise the raster aliases the argument
buffer and takes its inferred dtype.  (The source's middle branch
`guessedDtype && copy` is unreachable: `copy` is already handled above.) -/
def constructFromTypedBuffer (st : JSStore) (arrId : ℕ) (provided : Option Dtype)
    (copy : Bool) : Except JsError (JSStore × RasterRef) :=
  match st.bufs.get? arrId with
  | none => Except.error JsError.dataError
  | some (guessed, contents) =>
    let dtypeToUse := provided.getD Dtype.float64
    if (provided.isSome && decide (guessed ≠ dtypeToUse)) || copy then
      match copyDataAsType guessed contents dtypeToUse with
      | Except.error e => Except.error e
      | Except.ok newContents =>
        match setShape newContents.length [(newContents.length : ℤ)] with
        | Except.error e => Except.error e
        | Except.ok (s, str) =>
          Except.ok (⟨st.bufs ++ [(dtypeToUse, newContents)]⟩,
            ⟨st.bufs.length, dtypeToUse, s, str⟩)
    else
      match setShape contents.length [(contents.length : ℤ)] with
      | Except.error e => Except.error e
      | Except.ok (s, str) => Except.ok (st, ⟨arrId, guessed, s, str⟩)

/-- Member `set` acting through a buffer reference: same validation, clamp
and store conversion as `NdRaster.set`, but the write lands in the heap
buffer the raster references. -/
def setRef (st : JSStore) (r : RasterRef) (pos : List ℤ) (v : ℚ) :
    Except JsError JSStore :=
  match st.bufs.get? r.buf with
  | none => Except.error JsError.dataError
  | some (bufDtype, contents) =>
    if positionInvalid r.shape pos then Except.error JsError.positionError
    else
      let bounded := clampSet r.dtype v
      let off := dotZ pos r.strides
      match jsStore bufDtype bounded with
      | none => Except.error JsError.typeError
      | some w => Except.ok ⟨st.bufs.set r.buf (bufDtype, jsWrite contents off w)⟩

/-- A dimension is "saturated in range" for the iterator when its component
lies in `[min, max)` and incrementing it would reach `max` (i.e. it sits at
`max - 1`): exactly the condition under which the source's descending scan
carries past that dimension. -/
def satInRange : List ℤ → List ℤ → List ℤ → Bool
  | [], [], [] => true
  | p :: ps, m :: ms, x :: xs =>
    decide (m ≤ p) && decide (p < x) && decide (x ≤ p + 1) && satInRange ps ms xs
  | _, _, _ => false

/-- The six dtypes stored in ordinary integer typed arrays (the 64-bit kinds
are BigInt-backed and the float kinds perform no integer conversion). -/
def Dtype.isSmallInt : Dtype → Bool
  | Dtype.uint8 | Dtype.int8 | Dtype.uint16 | Dtype.int16
  | Dtype.uint32 | Dtype.int32 => true
  | _ => false

/-- Smallest representable value of an integer typed-array kind. -/
def storageMin : Dtype → ℤ
  | Dtype.int8 => -128
  | Dtype.int16 => -32768
  | Dtype.int32 => -2147483648
  | _ => 0

/-- Largest representable value of an integer typed-array kind. -/
def storageMax : Dtype → ℤ
  | Dtype.uint8 => 255
  | Dtype.int8 => 127
  | Dtype.uint16 => 65535
  | Dtype.int16 => 32767
  | Dtype.uint32 => 4294967295
  | Dtype.int32 => 2147483647
  | _ => 0

/-- C1: the round-trip property `set(p, v); get(p) == saturate(v, bounds)`
holds on `uint8` (the spec's own example: 300 saturates to 255) but fails on
`uint16`: the registry's wrong `min` of `-32768` lets `-5` through the clamp,
and the `Uint16Array` store wraps it to `65531`, not the saturated `0`. -/
theorem c1_set_get_roundtrip_fails_uint16 :
    NdRaster.set ⟨Dtype.uint8, [1], [1], [0]⟩ [0] 300 =
      Except.ok ⟨Dtype.uint8, [1], [1], [255]⟩ ∧
    NdRaster.get ⟨Dtype.uint8, [1], [1], [255]⟩ [0] = Except.ok 255 ∧
    NdRaster.set ⟨Dtype.uint16, [1], [1], [0]⟩ [0] (-5) =
      Except.ok ⟨Dtype.uint16, [1], [1], [65531]⟩ ∧
    NdRaster.get ⟨Dtype.uint16, [1], [1], [65531]⟩ [0] = Except.ok 65531 ∧
    (65531 : ℚ) ≠ 0 := by
  refine ⟨by decide, by decide, by decide, by decide, by decide⟩

/-- C2: the registry entry (and the `bounds` accessor) for `uint16` is the
signed pair `(-32768, 32767)`, not the unsigned range `[0, 65535]` the claim
states; the same signed formula is used for `uint32` and `uint64`. -/
theorem c2_uint16_bounds_not_unsigned :
    DTYPE_TO_BOUND Dtype.uint16 = (JNum.fin (-32768), JNum.fin 32767) ∧
    NdRaster.bounds ⟨Dtype.uint16, [1], [1], [0]⟩ =
      (JNum.fin (-32768), JNum.fin 32767) ∧
    DTYPE_TO_BOUND Dtype.uint32 =
      (JNum.fin (-2147483648), JNum.fin 2147483647) ∧
    JNum.fin (-32768 : ℚ) ≠ JNum.fin 0 ∧
    JNum.fin (32767 : ℚ) ≠ JNum.fin 65535 := by
  refine ⟨by decide, by decide, by decide, by decide, by decide⟩

/-- C3: slicing a one-element `float64` raster holding 300 into a `uint8`
destination stores `44` (the raw wrap of 300 modulo 256), not the saturated
`255`: the slice loop's clamp compares against the nonexistent properties
`DTYPE_TO_BOUND.min`/`.max` (undefined), so it never fires.  The second
conjunct shows what saturation into the `uint8` registry range gives. -/
theorem c3_slice_does_not_saturate :
    NdRaster.slice ⟨Dtype.float64, [1], [1], [300]⟩ [0] [1] Dtype.uint8 false =
      Except.ok ⟨Dtype.uint8, [1], [1], [44]⟩ ∧
    clampElseIf Dtype.uint8 300 = 255 ∧
    (44 : ℚ) ≠ 255 := by
  refine ⟨by decide, by decide, by decide⟩

/-- C4: on a 2-D raster the strict-mode bound check fails to reject
`max[1] = 3 > shape[1] = 2`, because the source compares `max[i]` against the
whole shape array (which coerces to NaN for two or more dimensions), although
the condition the claim states does hold there; on a 1-D raster the same
comparison accidentally works (a singleton array coerces to its number). -/
theorem c4_strict_check_misses_oversized_max :
    strictSliceCheckThrows [2, 2] [0, 0] [2, 3] = false ∧
    specStrictViolation [2, 2] [0, 0] [2, 3] = true ∧
    strictSliceCheckThrows [4] [0] [9] = true := by
  refine ⟨by decide, by decide, by decide⟩

/-- C9: the nested input `[[1,2],[3,4,5],[6]]` has three same-level rows of
differing lengths, yet flattening accepts it (shape `[3,2]` from the first
row, flattened length 6 equals the shape product), while the spec's own
example `[[1,2],[3]]` is rejected. -/
theorem c9_irregular_nested_accepted :
    flattenNestedArray (JVal.arr [JVal.arr [JVal.num 1, JVal.num 2],
        JVal.arr [JVal.num 3, JVal.num 4, JVal.num 5], JVal.arr [JVal.num 6]]) =
      Except.ok ([JVal.num 1, JVal.num 2, JVal.num 3, JVal.num 4, JVal.num 5,
        JVal.num 6], [3, 2]) ∧
    flattenNestedArray (JVal.arr [JVal.arr [JVal.num 1, JVal.num 2],
        JVal.arr [JVal.num 3]]) = Except.error JsError.dataError := by
  exact ⟨rfl, rfl⟩

/-- C6 counterexample: the shape setter accepts the empty shape whenever the
data holds exactly one element (the empty product is 1), producing empty
strides, whose last entry is not 1 — there is no last entry. -/
theorem c6_empty_shape_breaks_invariant :
    setShape 1 [] = Except.ok ([], []) ∧
    ([] : List ℤ).getLast? ≠ some 1 := by
  refine ⟨by decide, by decide⟩

/-- C7 counterexample: shapes with non-positive entries are accepted whenever
their product happens to equal the element count — `[-1, -1]` for one-element
data and `[0]` for empty data — with no ShapeError raised. -/
theorem c7_invalid_shapes_accepted :
    setShape 1 [-1, -1] = Except.ok ([-1, -1], [-1, 1]) ∧
    setShape 0 [0] = Except.ok ([0], [1]) := by
  refine ⟨by decide, by decide⟩

/-- C8 counterexample: `getNextPosition([5,0], [0,0], [2,2])` returns
`[5, 1]` even though component 0 is far outside `[0, 2)`: the descending scan
returns as soon as the fastest dimension can be incremented, never checking
the slower dimensions. -/
theorem c8_out_of_range_position_not_detected :
    getNextPosition [5, 0] [0, 0] [2, 2] = some [5, 1] ∧
    ¬ ((0 : ℤ) ≤ 5 ∧ (5 : ℤ) < 2) := by
  refine ⟨by decide, by decide⟩

/-- The derived strides list always has the same length as the shape. -/
theorem deriveStrides_length (s : List ℤ) : (deriveStrides s).length = s.length := by
  induction s with
  | nil => rfl
  | cons a t ih =>
    cases t with
    | nil => rfl
    | cons b t2 => simp [deriveStrides] at ih ⊢; omega

/-- For a non-empty shape the last derived stride is 1. -/
theorem deriveStrides_getLast :
    ∀ (s : List ℤ), s ≠ [] → (deriveStrides s).getLast? = some 1
  | [], h => absurd rfl h
  | [_], _ => rfl
  | a :: b :: t2, _ => by
    have ih := deriveStrides_getLast (b :: t2) (by simp)
    have h2 : deriveStrides (b :: t2) ≠ [] := by
      intro hc
      have hl := deriveStrides_length (b :: t2)
      rw [hc] at hl
      simp at hl
    obtain ⟨y, l2, he⟩ := List.exists_cons_of_ne_nil h2
    show ((b * (deriveStrides (b :: t2)).headD 0) ::
      deriveStrides (b :: t2)).getLast? = some 1
    rw [he, List.getLast?_cons_cons, ← he, ih]

/-- The derived strides satisfy the row-major recurrence
`strides[i] = shape[i+1] * strides[i+1]`. -/
theorem deriveStrides_rec :
    ∀ (s : List ℤ) (i : ℕ), i + 1 < s.length →
      (deriveStrides s).getD i 0 = s.getD (i + 1) 0 * (deriveStrides s).getD (i + 1) 0
  | [], i, hi => by simp at hi
  | [_], i, hi => by simp at hi
  | a :: b :: t2, 0, _ => by
    have h2 : deriveStrides (b :: t2) ≠ [] := by
      intro hc
      have hl := deriveStrides_length (b :: t2)
      rw [hc] at hl
      simp at hl
    obtain ⟨y, l2, he⟩ := List.exists_cons_of_ne_nil h2
    show ((b * (deriveStrides (b :: t2)).headD 0) ::
        deriveStrides (b :: t2)).getD 0 0 =
      (a :: b :: t2).getD 1 0 * ((b * (deriveStrides (b :: t2)).headD 0) ::
        deriveStrides (b :: t2)).getD 1 0
    rw [he]
    simp
  | a :: b :: t2, i + 1, hi => by
    have ih := deriveStrides_rec (b :: t2) i (by simp at hi ⊢; omega)
    show ((b * (deriveStrides (b :: t2)).headD 0) ::
        deriveStrides (b :: t2)).getD (i + 1) 0 =
      (a :: b :: t2).getD (i + 2) 0 * ((b * (deriveStrides (b :: t2)).headD 0) ::
        deriveStrides (b :: t2)).getD (i + 2) 0
    simpa using ih

/-- C6 (amended): after every successful reshape the stride invariant holds
with the last-stride clause restricted to non-empty shapes — the stored shape
is the given one, the strides have the same length, for a NON-EMPTY shape the
last stride is 1 and the row-major recurrence holds, and the shape product
equals the element count.  (The empty shape is accepted for one-element data
and yields empty strides with no last entry, refuting the unrestricted
claim.) -/
theorem c6_stride_invariant_nonempty (dataLen : ℕ) (shape : List ℤ)
    (out : List ℤ × List ℤ) (h : setShape dataLen shape = Except.ok out) :
    out.1 = shape ∧
    out.2.length = shape.length ∧
    (shape ≠ [] → out.2.getLast? = some 1) ∧
    (∀ i, i + 1 < shape.length →
      out.2.getD i 0 = shape.getD (i + 1) 0 * out.2.getD (i + 1) 0) ∧
    jsTotal shape = (dataLen : ℤ) := by
  unfold setShape at h
  split at h
  · exact absurd h (by simp)
  · have hout : (shape, deriveStrides shape) = out := by
      exact Except.ok.inj h
    subst hout
    refine ⟨rfl, deriveStrides_length shape,
      fun hne => deriveStrides_getLast shape hne,
      fun i hi => deriveStrides_rec shape i hi, ?_⟩
    omega

/-- Witness for C6 (amended) at the concrete reshape of 6 elements to
`[2, 3]`, whose strides are `[3, 1]`. -/
theorem c6_stride_invariant_witness :
    setShape 6 [2, 3] = Except.ok ([2, 3], [3, 1]) ∧
    ((([2, 3] : List ℤ), ([3, 1] : List ℤ)).1 = [2, 3] ∧
     (([2, 3] : List ℤ), ([3, 1] : List ℤ)).2.length = ([2, 3] : List ℤ).length ∧
     (([2, 3] : List ℤ) ≠ [] →
       (([2, 3] : List ℤ), ([3, 1] : List ℤ)).2.getLast? = some 1) ∧
     (∀ i, i + 1 < ([2, 3] : List ℤ).length →
       (([2, 3] : List ℤ), ([3, 1] : List ℤ)).2.getD i 0 =
         ([2, 3] : List ℤ).getD (i + 1) 0 *
           (([2, 3] : List ℤ), ([3, 1] : List ℤ)).2.getD (i + 1) 0) ∧
     jsTotal [2, 3] = ((6 : ℕ) : ℤ)) :=
  ⟨by decide, c6_stride_invariant_nonempty 6 [2, 3] ([2, 3], [3, 1]) (by decide)⟩

/-- C7 (amended): assigning a shape fails (with the ShapeError) exactly when
the product of its entries differs from the element count — emptiness and
non-positive entries are not validated, so any shape whose product happens to
equal the element count is accepted. -/
theorem c7_shape_error_iff (dataLen : ℕ) (shape : List ℤ) :
    setShape dataLen shape = Except.error JsError.shapeError ↔
      jsTotal shape ≠ (dataLen : ℤ) := by
  unfold setShape
  split
  · simp [*]
  · simp [*]

/-- Witness for C7 (amended) at the accepted non-positive shape `[-1, -1]`
over one data element. -/
theorem c7_shape_error_iff_witness :
    setShape 1 [-1, -1] = Except.error JsError.shapeError ↔
      jsTotal [-1, -1] ≠ ((1 : ℕ) : ℤ) :=
  c7_shape_error_iff 1 [-1, -1]

/-- Appending one saturated-in-range dimension preserves `satInRange`. -/
theorem satInRange_append (A B C : List ℤ) (p m x : ℤ)
    (h : satInRange A B C = true) (h1 : m ≤ p) (h2 : p < x) (h3 : x ≤ p + 1) :
    satInRange (A ++ [p]) (B ++ [m]) (C ++ [x]) = true := by
  induction A generalizing B C with
  | nil =>
    cases B with
    | cons b B2 => cases C <;> simp [satInRange] at h
    | nil =>
      cases C with
      | cons c C2 => simp [satInRange] at h
      | nil => simp [satInRange, h1, h2, h3]
  | cons a A2 ih =>
    cases B with
    | nil => simp [satInRange] at h
    | cons b B2 =>
      cases C with
      | nil => simp [satInRange] at h
      | cons c C2 =>
        simp only [satInRange, Bool.and_eq_true, decide_eq_true_eq] at h
        simp only [List.cons_append, satInRange, Bool.and_eq_true,
          decide_eq_true_eq]
        exact ⟨h.1, ih B2 C2 h.2⟩

/-- `satInRange` is stable under simultaneous reversal. -/
theorem satInRange_reverse (A B C : List ℤ) (h : satInRange A B C = true) :
    satInRange A.reverse B.reverse C.reverse = true := by
  induction A generalizing B C with
  | nil =>
    cases B with
    | cons b B2 => cases C <;> simp [satInRange] at h
    | nil =>
      cases C with
      | cons c C2 => simp [satInRange] at h
      | nil => exact h
  | cons a A2 ih =>
    cases B with
    | nil => simp [satInRange] at h
    | cons b B2 =>
      cases C with
      | nil => simp [satInRange] at h
      | cons c C2 =>
        simp only [satInRange, Bool.and_eq_true, decide_eq_true_eq] at h
        simp only [List.reverse_cons]
        exact satInRange_append A2.reverse B2.reverse C2.reverse a b c
          (ih B2 C2 h.2) h.1.1.1 h.1.1.2 h.1.2

/-- If the scan reaches an out-of-range component after passing only
saturated in-range dimensions, `gnpAux` returns `none` (the prefix here is
the reversed list of faster dimensions, scanned first). -/
theorem gnpAux_saturated (tp tm tx : List ℤ) (h : satInRange tp tm tx = true)
    (p m x : ℤ) (hbad : p < m ∨ x ≤ p) (ra rb rc : List ℤ) :
    gnpAux (tp ++ p :: ra) (tm ++ m :: rb) (tx ++ x :: rc) = none := by
  induction tp generalizing tm tx with
  | nil =>
    cases tm with
    | cons b B2 => cases tx <;> simp [satInRange] at h
    | nil =>
      cases tx with
      | cons c C2 => simp [satInRange] at h
      | nil =>
        simp only [List.nil_append]
        unfold gnpAux
        rw [if_pos hbad]
  | cons t tp2 ih =>
    cases tm with
    | nil => simp [satInRange] at h
    | cons u tm2 =>
      cases tx with
      | nil => simp [satInRange] at h
      | cons v tx2 =>
        simp only [satInRange, Bool.and_eq_true, decide_eq_true_eq] at h
        obtain ⟨⟨⟨h1, h2⟩, h3⟩, h4⟩ := h
        simp only [List.cons_append]
        unfold gnpAux
        rw [if_neg (by omega : ¬ (t < u ∨ v ≤ t)), if_pos h3,
          ih tm2 tx2 h4]
        rfl

/-- C8 (amended): `getNextPosition` returns `none` when the input position is
out of `[min, max)` in some dimension `i` AND every faster dimension after
`i` is saturated in range (at `max - 1`, so the scan carries past it) — in
particular whenever the LAST dimension is out of range.  The unrestricted
claim fails: an out-of-range component in a slower dimension is never
examined once a faster dimension can be incremented. -/
theorem c8_next_position_scanned_suffix (fp fm fx : List ℤ) (p m x : ℤ)
    (tp tm tx : List ℤ) (hsat : satInRange tp tm tx = true)
    (hbad : p < m ∨ x ≤ p) :
    getNextPosition (fp ++ p :: tp) (fm ++ m :: tm) (fx ++ x :: tx) = none := by
  unfold getNextPosition
  have e1 : (fp ++ p :: tp).reverse = tp.reverse ++ p :: fp.reverse := by
    simp [List.reverse_append]
  have e2 : (fm ++ m :: tm).reverse = tm.reverse ++ m :: fm.reverse := by
    simp [List.reverse_append]
  have e3 : (fx ++ x :: tx).reverse = tx.reverse ++ x :: fx.reverse := by
    simp [List.reverse_append]
  rw [e1, e2, e3,
    gnpAux_saturated tp.reverse tm.reverse tx.reverse
      (satInRange_reverse tp tm tx hsat) p m x hbad fp.reverse fm.reverse
      fx.reverse]
  rfl

/-- Witness for C8 (amended): a one-dimensional position out of range in its
(only, hence last) dimension is rejected. -/
theorem c8_next_position_witness :
    satInRange [] [] [] = true ∧ ((5 : ℤ) < 0 ∨ (2 : ℤ) ≤ 5) ∧
    getNextPosition [5] [0] [2] = none :=
  ⟨rfl, Or.inr (by decide),
    c8_next_position_scanned_suffix [] [] [] 5 0 2 [] [] [] rfl
      (Or.inr (by decide))⟩

/-- When neither registry bound fires, the `set` clamp is the identity. -/
theorem clampSet_id (d : Dtype) (v : ℚ)
    (hlo : jlt (JNum.fin v) (DTYPE_TO_BOUND d).1 = false)
    (hhi : jlt (DTYPE_TO_BOUND d).2 (JNum.fin v) = false) :
    clampSet d v = v := by
  simp [clampSet, hlo, hhi]

/-- When neither registry bound fires, the conversion clamp is the identity. -/
theorem clampElseIf_id (d : Dtype) (v : ℚ)
    (hlo : jlt (JNum.fin v) (DTYPE_TO_BOUND d).1 = false)
    (hhi : jlt (DTYPE_TO_BOUND d).2 (JNum.fin v) = false) :
    clampElseIf d v = v := by
  simp [clampElseIf, hlo, hhi]

/-- On the integer typed-array kinds, a store of a value whose truncation
lies in the representable range keeps exactly that truncation (the 2^w wrap
is the identity there). -/
theorem jsStore_smallInt (d : Dtype) (hd : d.isSmallInt = true) (q : ℚ)
    (h1 : storageMin d ≤ truncTowardZero q)
    (h2 : truncTowardZero q ≤ storageMax d) :
    jsStore d q = some ((truncTowardZero q : ℤ) : ℚ) := by
  cases d
  case uint8 =>
    simp only [storageMin, storageMax] at h1 h2
    simp only [jsStore]
    have hw : wrapUnsigned 8 (truncTowardZero q) = truncTowardZero q := by
      unfold wrapUnsigned
      omega
    rw [hw]
  case int8 =>
    simp only [storageMin, storageMax] at h1 h2
    simp only [jsStore]
    have hw : wrapSigned 8 (truncTowardZero q) = truncTowardZero q := by
      simp only [wrapSigned]
      split <;> omega
    rw [hw]
  case uint16 =>
    simp only [storageMin, storageMax] at h1 h2
    simp only [jsStore]
    have hw : wrapUnsigned 16 (truncTowardZero q) = truncTowardZero q := by
      unfold wrapUnsigned
      omega
    rw [hw]
  case int16 =>
    simp only [storageMin, storageMax] at h1 h2
    simp only [jsStore]
    have hw : wrapSigned 16 (truncTowardZero q) = truncTowardZero q := by
      simp only [wrapSigned]
      split <;> omega
    rw [hw]
  case uint32 =>
    simp only [storageMin, storageMax] at h1 h2
    simp only [jsStore]
    have hw : wrapUnsigned 32 (truncTowardZero q) = truncTowardZero q := by
      unfold wrapUnsigned
      omega
    rw [hw]
  case int32 =>
    simp only [storageMin, storageMax] at h1 h2
    simp only [jsStore]
    have hw : wrapSigned 32 (truncTowardZero q) = truncTowardZero q := by
      simp only [wrapSigned]
      split <;> omega
    rw [hw]
  all_goals exact absurd hd (by simp [Dtype.isSmallInt])

/-- C10 counterexample: the unrestricted truncation claim fails on `uint16`
for in-bounds non-integer values under either reading of "bounds".  Within
the representable range [0, 65535]: writing `40000.5` is clamped by the
registry (whose uint16 max is 32767), so `get` returns `32767`, not the
truncation `40000`.  Within the registry/`bounds`-accessor range
[-32768, 32767]: writing `-5.5` passes the clamp, truncates to `-5` and the
`Uint16Array` store wraps it, so `get` returns `65531`, not `-5`. -/
theorem c10_uint16_inbounds_not_truncation :
    (NdRaster.set ⟨Dtype.uint16, [1], [1], [0]⟩ [0] (mkRat 80001 2) =
      Except.ok ⟨Dtype.uint16, [1], [1], [32767]⟩ ∧
     NdRaster.get ⟨Dtype.uint16, [1], [1], [32767]⟩ [0] = Except.ok 32767 ∧
     truncTowardZero (mkRat 80001 2) = 40000 ∧
     (32767 : ℚ) ≠ ((40000 : ℤ) : ℚ) ∧
     (0 : ℚ) ≤ mkRat 80001 2 ∧ mkRat 80001 2 ≤ 65535) ∧
    (NdRaster.set ⟨Dtype.uint16, [1], [1], [0]⟩ [0] (mkRat (-11) 2) =
      Except.ok ⟨Dtype.uint16, [1], [1], [65531]⟩ ∧
     NdRaster.get ⟨Dtype.uint16, [1], [1], [65531]⟩ [0] = Except.ok 65531 ∧
     truncTowardZero (mkRat (-11) 2) = -5 ∧
     (65531 : ℚ) ≠ ((-5 : ℤ) : ℚ) ∧
     jlt (JNum.fin (mkRat (-11) 2)) (DTYPE_TO_BOUND Dtype.uint16).1 = false ∧
     jlt (DTYPE_TO_BOUND Dtype.uint16).2 (JNum.fin (mkRat (-11) 2)) = false) := by
  refine ⟨⟨by decide, by decide, by decide, by decide, by decide, by decide⟩,
    by decide, by decide, by decide, by decide, by decide, by decide⟩

/-- C10 (amended): on an integer-dtype raster, for a non-integer value that
the registry clamp leaves untouched AND whose truncation toward zero lies in
the storage-representable range (the two ranges coincide for `uint8` and the
signed kinds but differ for `uint16`/`uint32`, where the registry rows are
wrong), `set` stores the truncation toward zero, so `get` returns that
integer (different from the written value); `copyDataAsType` applies the same
conversion to every element it copies.  Outside that overlap the stored value
is the clamp's output or the 2^w wrap of the truncation instead. -/
theorem c10_integer_store_truncates (d : Dtype) (hd : d.isSmallInt = true)
    (r : NdRaster) (pos : List ℤ) (v : ℚ)
    (hdt : r.dtype = d)
    (hpos : positionInvalid r.shape pos = false)
    (hoff0 : 0 ≤ dotZ pos r.strides)
    (hoffLen : (dotZ pos r.strides).toNat < r.data.length)
    (hlo : jlt (JNum.fin v) (DTYPE_TO_BOUND d).1 = false)
    (hhi : jlt (DTYPE_TO_BOUND d).2 (JNum.fin v) = false)
    (hmin : storageMin d ≤ truncTowardZero v)
    (hmax : truncTowardZero v ≤ storageMax d)
    (hden : v.den ≠ 1) :
    (∃ r2 : NdRaster, r.set pos v = Except.ok r2 ∧
      r2.get pos = Except.ok ((truncTowardZero v : ℤ) : ℚ) ∧
      ((truncTowardZero v : ℤ) : ℚ) ≠ v) ∧
    (∀ src : Dtype, src ≠ d →
      copyDataAsType src [v] d = Except.ok [((truncTowardZero v : ℤ) : ℚ)]) := by
  have hne : ((truncTowardZero v : ℤ) : ℚ) ≠ v := by
    intro he
    apply hden
    rw [← he]
    rfl
  constructor
  · refine ⟨{ r with data := jsWrite r.data (dotZ pos r.strides) ((truncTowardZero v : ℤ) : ℚ) }, ?_, ?_, hne⟩
    · unfold NdRaster.set
      rw [hpos]
      simp only [Bool.false_eq_true, if_false]
      rw [hdt, clampSet_id d v hlo hhi, jsStore_smallInt d hd v hmin hmax]
    · have hlen : (jsWrite r.data (dotZ pos r.strides)
          ((truncTowardZero v : ℤ) : ℚ)).length = r.data.length := by
        unfold jsWrite
        split
        · rfl
        · exact List.length_set r.data _ _
      unfold NdRaster.get
      simp only [hpos, Bool.false_eq_true, if_false]
      rw [if_pos ⟨hoff0, by rw [hlen]; exact hoffLen⟩]
      have hval : (jsWrite r.data (dotZ pos r.strides)
          ((truncTowardZero v : ℤ) : ℚ)).getD (dotZ pos r.strides).toNat 0 =
          ((truncTowardZero v : ℤ) : ℚ) := by
        unfold jsWrite
        rw [if_neg (not_lt.mpr hoff0)]
        show ((r.data.set (dotZ pos r.strides).toNat
          ((truncTowardZero v : ℤ) : ℚ)).get? (dotZ pos r.strides).toNat).getD 0 =
          ((truncTowardZero v : ℤ) : ℚ)
        rw [List.get?_eq_getElem?, List.getElem?_set_eq_of_lt _ hoffLen]
        rfl
      rw [hval]
  · intro src hsrc
    unfold copyDataAsType
    rw [if_neg hsrc]
    unfold convertElems
    rw [clampElseIf_id d v hlo hhi, jsStore_smallInt d hd v hmin hmax]
    rfl

/-- Witness for C10 on a `uint8` raster: writing `7/2` stores `3`. -/
theorem c10_integer_store_witness :
    (mkRat 7 2).den ≠ 1 ∧
    ((∃ r2 : NdRaster,
        NdRaster.set ⟨Dtype.uint8, [2], [1], [0, 0]⟩ [1] (mkRat 7 2) =
          Except.ok r2 ∧
        r2.get [1] = Except.ok ((truncTowardZero (mkRat 7 2) : ℤ) : ℚ) ∧
        ((truncTowardZero (mkRat 7 2) : ℤ) : ℚ) ≠ mkRat 7 2) ∧
      (∀ src : Dtype, src ≠ Dtype.uint8 →
        copyDataAsType src [mkRat 7 2] Dtype.uint8 =
          Except.ok [((truncTowardZero (mkRat 7 2) : ℤ) : ℚ)])) :=
  ⟨by decide,
    c10_integer_store_truncates Dtype.uint8 rfl ⟨Dtype.uint8, [2], [1], [0, 0]⟩
      [1] (mkRat 7 2) rfl (by decide) (by decide) (by decide) (by decide)
      (by decide) (by decide) (by decide) (by decide)⟩

/-- The constructor's default shape assignment `[data.length]` always
succeeds, with strides `[1]`. -/
theorem setShape_singleton (n : ℕ) :
    setShape n [(n : ℤ)] = Except.ok ([(n : ℤ)], [1]) := by
  unfold setShape jsTotal deriveStrides
  simp

/-- C5: constructing from a typed buffer with `copy = false` and a matching
(or absent) dtype option aliases the buffer — the raster references the very
same heap cell, so a successful `set` through it is visible when reading the
original buffer handle; with `copy = true`, or a provided dtype that differs
from the inferred one, the raster references a freshly allocated cell, the
original cell is unchanged by construction, and any later `set` through the
raster leaves the original cell's contents untouched. -/
theorem c5_buffer_aliasing (st : JSStore) (arrId : ℕ) (guessed : Dtype)
    (contents : List ℚ) (provided : Option Dtype) (copy : Bool)
    (hbuf : st.bufs.get? arrId = some (guessed, contents)) :
    ((copy = false ∧ (provided = none ∨ provided = some guessed)) →
      ∃ r : RasterRef,
        constructFromTypedBuffer st arrId provided copy = Except.ok (st, r) ∧
        r.buf = arrId ∧ r.dtype = guessed ∧
        (∀ (pos : List ℤ) (v : ℚ) (st2 : JSStore),
          setRef st r pos v = Except.ok st2 →
          ∃ w : ℚ, jsStore guessed (clampSet guessed v) = some w ∧
            st2.bufs.get? arrId =
              some (guessed, jsWrite contents (dotZ pos r.strides) w))) ∧
    ((copy = true ∨ (∃ pd : Dtype, provided = some pd ∧ pd ≠ guessed)) →
      ∀ (st2 : JSStore) (r : RasterRef),
        constructFromTypedBuffer st arrId provided copy = Except.ok (st2, r) →
        r.buf ≠ arrId ∧
        st2.bufs.get? arrId = some (guessed, contents) ∧
        (∀ (pos : List ℤ) (v : ℚ) (st3 : JSStore),
          setRef st2 r pos v = Except.ok st3 →
          st3.bufs.get? arrId = some (guessed, contents))) := by
  have hlt : arrId < st.bufs.length := (List.get?_eq_some.mp hbuf).1
  have hbufE : st.bufs[arrId]? = some (guessed, contents) := by
    rw [← List.get?_eq_getElem?]
    exact hbuf
  constructor
  · rintro ⟨hc, hp⟩
    subst hc
    refine ⟨⟨arrId, guessed, [(contents.length : ℤ)], [1]⟩, ?_, rfl, rfl, ?_⟩
    · rcases hp with h | h <;> subst h <;>
        simp [constructFromTypedBuffer, hbufE, setShape_singleton]
    · intro pos v st2 hset
      simp only [setRef, hbuf] at hset
      split at hset
      · exact absurd hset (by simp)
      · cases hjs : jsStore guessed (clampSet guessed v) with
        | none =>
          rw [hjs] at hset
          exact absurd hset (by simp)
        | some w =>
          rw [hjs] at hset
          refine ⟨w, rfl, ?_⟩
          have hst2 : JSStore.mk (st.bufs.set arrId
              (guessed, jsWrite contents (dotZ pos [1]) w)) = st2 :=
            Except.ok.inj hset
          rw [← hst2]
          show (st.bufs.set arrId
            (guessed, jsWrite contents (dotZ pos [1]) w)).get? arrId = _
          rw [List.get?_eq_getElem?, List.getElem?_set_eq_of_lt _ hlt]
  · rintro hB st2 r hcons
    have hcond : ((provided.isSome &&
        decide (guessed ≠ provided.getD Dtype.float64)) || copy) = true := by
      rcases hB with h | ⟨pd, hpd, hne⟩
      · subst h
        simp
      · subst hpd
        have hgp : guessed ≠ pd := fun he => hne he.symm
        simp [hgp]
    simp only [constructFromTypedBuffer, hbuf] at hcons
    rw [hcond] at hcons
    simp only [if_true] at hcons
    cases hcc : copyDataAsType guessed contents (provided.getD Dtype.float64) with
    | error e =>
      rw [hcc] at hcons
      exact absurd hcons (by simp)
    | ok nc =>
      rw [hcc] at hcons
      simp only [setShape_singleton] at hcons
      have h2 := Except.ok.inj hcons
      injection h2 with hA hBr
      subst hA
      subst hBr
      refine ⟨by simp; omega, ?_, ?_⟩
      · show (st.bufs ++ [(provided.getD Dtype.float64, nc)]).get? arrId = _
        rw [List.get?_append hlt, hbuf]
      · intro pos v st3 hset
        have hread : (st.bufs ++
            [(provided.getD Dtype.float64, nc)]).get? st.bufs.length =
            some (provided.getD Dtype.float64, nc) :=
          List.get?_concat_length st.bufs _
        simp only [setRef, hread] at hset
        split at hset
        · exact absurd hset (by simp)
        · cases hjs : jsStore (provided.getD Dtype.float64)
              (clampSet (provided.getD Dtype.float64) v) with
          | none =>
            rw [hjs] at hset
            exact absurd hset (by simp)
          | some w =>
            rw [hjs] at hset
            have hst3 := Except.ok.inj hset
            rw [← hst3]
            show ((st.bufs ++ [(provided.getD Dtype.float64, nc)]).set
              st.bufs.length _).get? arrId = _
            rw [List.get?_eq_getElem?, List.getElem?_set_ne (by omega),
              ← List.get?_eq_getElem?, List.get?_append hlt, hbuf]

/-- Witness for C5: a `uint8` buffer constructed with no dtype option and
`copy = false` is aliased (the raster references heap cell 0). -/
theorem c5_buffer_aliasing_witness :
    ∃ r : RasterRef,
      constructFromTypedBuffer ⟨[(Dtype.uint8, [(1 : ℚ), 2])]⟩ 0 none false =
        Except.ok (⟨[(Dtype.uint8, [(1 : ℚ), 2])]⟩, r) ∧
      r.buf = 0 ∧ r.dtype = Dtype.uint8 ∧
      (∀ (pos : List ℤ) (v : ℚ) (st2 : JSStore),
        setRef ⟨[(Dtype.uint8, [(1 : ℚ), 2])]⟩ r pos v = Except.ok st2 →
        ∃ w : ℚ, jsStore Dtype.uint8 (clampSet Dtype.uint8 v) = some w ∧
          st2.bufs.get? 0 =
            some (Dtype.uint8, jsWrite [(1 : ℚ), 2] (dotZ pos r.strides) w)) :=
  (c5_buffer_aliasing ⟨[(Dtype.uint8, [(1 : ℚ), 2])]⟩ 0 Dtype.uint8
    [(1 : ℚ), 2] none false rfl).1 ⟨rfl, Or.inl rfl⟩
